import Mathlib

/-!
Shallow embedding of the n8n `@n8n/chat` session store: the closure created by
`ChatPlugin.install` (sessions map, conversation registry, active/current
pointers, `waitingForResponse` flag, localStorage persistence) together with
the store operations `sendMessage`, `switchSession`, `loadConversation`,
`loadPreviousSession`, `startNewSession`, and the helpers
`getStoredConversations`, `updateStoredConversations`,
`generateConversationName`.

Modelling conventions:
* ISO-8601 timestamps (`new Date().toISOString()`, and the
  `new Date(x).getTime()` comparisons used by the registry sort) are modelled
  as naturals; `Date` parsing/formatting is strictly monotone in time, so the
  numeric order of the model coincides with the chronological order of the
  ISO strings in the source.
* `uuidv4()` and `new Date()` draws are external inputs: each operation takes
  the ids/timestamps it draws as explicit parameters.  Successive `Date()`
  calls within one synchronous (no-`await`) block are given one timestamp.
* The two backend calls (`api.sendMessage`, `api.loadPreviousSession`) are
  oracles: their responses are parameters.  Each `async` operation is split at
  its `await` point into a `...Begin` and a `...Finish` phase so that
  interleavings of the single-threaded event loop (another store operation
  running while a backend call is in flight) are expressible; the non-
  interleaved composition is also provided.
* `sessions` is a `Map<string, ChatMessage[]>`; it is modelled as an
  association list with JavaScript `Map.set` semantics (`mapSet` replaces the
  value of an existing key in place, otherwise appends the new key at the
  end) and `Map.get`/`Map.has` as `mapGet`/`mapHas`.
* localStorage is modelled by two slots in the state.  The conversation
  registry slot holds the parse result of the stored JSON string:
  `none` = key missing (`getItem` returned `null`, or the stored string is
  empty and therefore falsy), `some none` = a stored string on which
  `JSON.parse` throws or that does not describe a `ConversationMeta[]`,
  `some (some l)` = a stored string that parses to `l`.
  `updateStoredConversations` writes `JSON.stringify` of the list, which
  parses back to the same list.
* `initialMessages` is a Vue `computed` whose getter reads only the plain
  (non-reactive) `options` object, so Vue evaluates it once at first access
  and caches the result forever; the model therefore computes the list once
  in `installState` (with the uuid draws and timestamp of that single
  evaluation) and stores it in the state as `initialMsgs`.
* `JSON.stringify(sendMessageResponse, null, 2)` in `sendMessage` is an
  oracle recorded in the response value (`stringified = none` models a thrown
  serialization error, which the source swallows).
* `generateConversationName` returns a locale-formatted rendering of the
  current date; the formatting itself is irrelevant to the store logic and is
  modelled as `toString` of the timestamp.
* `Array.prototype.sort` with the comparator
  `(a, b) => new Date(b.lastUpdated).getTime() - new Date(a.lastUpdated).getTime()`
  is a comparison sort producing a permutation of its input that is sorted
  descending by `lastUpdated`; it is modelled by the insertion sort
  `sortConversations` with the same comparator `convLe`.
* Omitted as irrelevant to the verified claims: the derived `messages`
  computed, the never-written `agentId` ref, the `chatEventBus` scroll
  emissions, and the construction of the backend request payloads.
-/

namespace N8nChat

/-- `messageCount` payload of a `ConversationMeta` (`src/packages/@n8n/chat/src/types/chat.ts`). -/
structure MessageCount where
  user : Nat
  bot : Nat
deriving DecidableEq, Repr

/-- A chat message (`ChatMessage` of `@n8n/chat/types`): id, text, sender
(`"user"` or `"bot"`), optional attached files (file names), creation time. -/
structure ChatMessage where
  id : String
  text : String
  sender : String
  files : Option (List String) := none
  createdAt : Nat
deriving DecidableEq, Repr

/-- `ConversationMeta` (`src/packages/@n8n/chat/src/types/chat.ts`): a
conversation summary kept in the registry. -/
structure ConversationMeta where
  id : String
  name : String
  lastUpdated : Nat
  messageCount : MessageCount
deriving DecidableEq, Repr

/-- One record of the history returned by `api.loadPreviousSession`:
`{ id: string; kwargs: { content: string } }`. -/
structure HistoryRecord where
  id : String
  content : String
deriving DecidableEq, Repr

/-- The JSON object returned by `api.sendMessage`: the `output` and `text`
fields read by the store (absent = `none`), the number of keys of the object
(`Object.keys(r).length`), and the result of `JSON.stringify(r, null, 2)`
(`none` models a thrown serialization error). -/
structure SendResponse where
  output : Option String
  text : Option String
  numKeys : Nat
  stringified : Option String
deriving DecidableEq, Repr

/-- JavaScript `Map.get` on the association-list model of the sessions map. -/
def mapGet (m : List (String × α)) (k : String) : Option α :=
  (m.find? (fun p => p.1 == k)).map (fun p => p.2)

/-- JavaScript `Map.has`. -/
def mapHas (m : List (String × α)) (k : String) : Bool :=
  m.any (fun p => p.1 == k)

/-- JavaScript `Map.set`: replace the value of an existing key in place
(keeping its insertion position), otherwise append the new key at the end. -/
def mapSet : List (String × α) → String → α → List (String × α)
  | [], k, v => [(k, v)]
  | (a, b) :: rest, k, v =>
    if a == k then (k, v) :: rest else (a, b) :: mapSet rest k v

/-- Does `pat` occur as a contiguous sublist of `s`?  (Helper for
`String.prototype.includes`.) -/
def listIncludes (pat : List Char) : List Char → Bool
  | [] => pat.isEmpty
  | c :: rest => pat.isPrefixOf (c :: rest) || listIncludes pat rest

/-- JavaScript `s.includes(pat)`: substring containment. -/
def strIncludes (s pat : String) : Bool :=
  listIncludes pat.data s.data

/-- The full store state of the `ChatPlugin.install` closure plus the two
localStorage slots it uses. -/
structure ChatState where
  conversations : List ConversationMeta
  sessions : List (String × List ChatMessage)
  currentSessionId : Option String
  activeSessionId : Option String
  waitingForResponse : Bool
  initialMsgs : List ChatMessage
  storedConversations : Option (Option (List ConversationMeta))
  storedSessionId : Option String
deriving DecidableEq, Repr

/-- `getStoredConversations`: read the registry slot; `[]` when the key is
missing and `[]` when the stored string does not parse (the source wraps
`JSON.parse` in `try`/`catch` and returns `[]` from the `catch`). -/
def getStoredConversations : Option (Option (List ConversationMeta)) → List ConversationMeta
  | none => []
  | some none => []
  | some (some l) => l

/-- `updateStoredConversations`: `JSON.stringify` the list and write it to the
registry key (a full replace). -/
def updateStoredConversations (st : ChatState) (cs : List ConversationMeta) : ChatState :=
  { st with storedConversations := some (some cs) }

/-- `generateConversationName`: a human-readable rendering of the current
date (locale formatting abstracted to `toString`). -/
def generateConversationName (now : Nat) : String :=
  toString now

/-- The cached body of the `initialMessages` computed: one bot message per
configured text, each with its own uuid draw and the timestamp of the single
evaluation. -/
def mkInitialMessages (texts : List String) (uuidAt : Nat → String) (t0 : Nat) :
    List ChatMessage :=
  texts.enum.map (fun p =>
    { id := uuidAt p.1, text := p.2, sender := "bot", createdAt := t0 })

/-- The state set up by `ChatPlugin.install`: empty sessions map, pointers
`null`, registry loaded from storage via `getStoredConversations`, and the
`initialMessages` computed evaluated once and cached. -/
def installState (texts : List String) (uuidAt : Nat → String) (t0 : Nat)
    (storedConv : Option (Option (List ConversationMeta)))
    (storedSid : Option String) : ChatState :=
  { conversations := getStoredConversations storedConv
    sessions := []
    currentSessionId := none
    activeSessionId := none
    waitingForResponse := false
    initialMsgs := mkInitialMessages texts uuidAt t0
    storedConversations := storedConv
    storedSessionId := storedSid }

/-- `finalMessages.filter((m) => m.sender === w).length`. -/
def countSender (msgs : List ChatMessage) (w : String) : Nat :=
  (msgs.filter (fun m => m.sender == w)).length

/-- The `textMessage` computation of `sendMessage`:
`sendMessageResponse.output ?? sendMessageResponse.text ?? ''`, and when that
is `''` and the response object is non-empty, `JSON.stringify` of the full
response, with a thrown stringification error swallowed (leaving `''`). -/
def computeTextMessage (resp : SendResponse) : String :=
  let textMessage := resp.output.getD (resp.text.getD "")
  if textMessage == "" ∧ 0 < resp.numKeys then
    match resp.stringified with
    | some s => s
    | none => textMessage
  else textMessage

/-- The local variables of `sendMessage` that survive across its `await`:
the `updatedMessages` array captured before the backend call. -/
structure PendingSend where
  updatedMessages : List ChatMessage
deriving DecidableEq, Repr

/-- `sendMessage` up to the `await api.sendMessage(...)`: early return when
there is no active session; otherwise build the user message, append it to
the active session's list, and raise `waitingForResponse`.  Returns the
continuation data captured in local variables. -/
def sendMessageBegin (st : ChatState) (text : String) (files : Option (List String))
    (uuid : String) (t : Nat) : ChatState × Option PendingSend :=
  match st.activeSessionId with
  | none => (st, none)
  | some sid =>
    let sentMessage : ChatMessage :=
      { id := uuid, text := text, sender := "user", files := files, createdAt := t }
    let sessionMessages := (mapGet st.sessions sid).getD []
    let updatedMessages := sessionMessages ++ [sentMessage]
    ({ st with
        sessions := mapSet st.sessions sid updatedMessages
        waitingForResponse := true },
      some { updatedMessages := updatedMessages })

/-- Replace the fields of the first registry entry with the given id (the
in-place mutation of the entry returned by `conversations.value.find`). -/
def updateFirstConv (l : List ConversationMeta) (cid : String)
    (f : ConversationMeta → ConversationMeta) : List ConversationMeta :=
  match l with
  | [] => []
  | c :: rest => if c.id == cid then f c :: rest else c :: updateFirstConv rest cid f

/-- The registry sort order: `a` may stay before `b` exactly when
`new Date(b.lastUpdated).getTime() - new Date(a.lastUpdated).getTime() ≤ 0`,
that is, descending by `lastUpdated`. -/
def convRel (a b : ConversationMeta) : Prop :=
  b.lastUpdated ≤ a.lastUpdated

instance : DecidableRel convRel :=
  fun a b => Nat.decLe b.lastUpdated a.lastUpdated

instance : IsTotal ConversationMeta convRel :=
  ⟨fun a b => Nat.le_total b.lastUpdated a.lastUpdated⟩

instance : IsTrans ConversationMeta convRel :=
  ⟨fun _ _ _ h1 h2 => Nat.le_trans h2 h1⟩

/-- Boolean form of `convRel` (for executable sortedness checks). -/
def convLe (a b : ConversationMeta) : Bool :=
  decide (b.lastUpdated ≤ a.lastUpdated)

/-- The in-place `conversations.value.sort(...)`: a comparison sort by
`lastUpdated` descending (insertion sort in the model). -/
def sortConversations (l : List ConversationMeta) : List ConversationMeta :=
  l.insertionSort convRel

/-- Lines 125-142 of `sendMessage`: update the existing registry entry for
`sid` (timestamp + counts, in place via `conversations.value.find`) or push a
new one with a generated display name. -/
def upsertConversation (l : List ConversationMeta) (sid : String) (t : Nat)
    (stats : MessageCount) : List ConversationMeta :=
  if l.any (fun c => c.id == sid) then
    updateFirstConv l sid (fun c => { c with lastUpdated := t, messageCount := stats })
  else
    l ++ [{ id := sid, name := generateConversationName t,
            lastUpdated := t, messageCount := stats }]

/-- `sendMessage` from the return of the `await` to the end: build the bot
reply from the response, append it to the list of the session that
`activeSessionId` points at *now* (the source re-reads the live ref after the
`await`), recompute the message counts, upsert + sort + persist the registry
when the session has at least one message of each sender, and clear
`waitingForResponse`.  The `none` branch is unreachable through the store API
(`sendMessageBegin` requires an active session and no operation resets the
pointer to `null`). -/
def sendMessageFinish (st : ChatState) (p : PendingSend) (resp : SendResponse)
    (uuid : String) (t : Nat) : ChatState :=
  let textMessage := computeTextMessage resp
  let receivedMessage : ChatMessage :=
    { id := uuid, text := textMessage, sender := "bot", createdAt := t }
  let finalMessages := p.updatedMessages ++ [receivedMessage]
  match st.activeSessionId with
  | none => st
  | some sid =>
    let st1 := { st with sessions := mapSet st.sessions sid finalMessages }
    let stats : MessageCount :=
      { user := countSender finalMessages "user", bot := countSender finalMessages "bot" }
    let st2 :=
      if 0 < stats.user ∧ 0 < stats.bot then
        let sorted := sortConversations (upsertConversation st1.conversations sid t stats)
        updateStoredConversations { st1 with conversations := sorted } sorted
      else st1
    { st2 with waitingForResponse := false }

/-- The whole `sendMessage(text, files)` run without any interleaved store
operation during the backend call. -/
def sendMessage (st : ChatState) (text : String) (files : Option (List String))
    (uuidUser uuidBot : String) (resp : SendResponse) (tSend tRecv : Nat) : ChatState :=
  let r := sendMessageBegin st text files uuidUser tSend
  match r.2 with
  | none => r.1
  | some p => sendMessageFinish r.1 p resp uuidBot tRecv

/-- `switchSession` up to the `await api.loadPreviousSession(...)`: set both
pointers; on a cache hit nothing else happens (the `Bool` is `false`), on a
cache miss seed the key with `[]` and raise `waitingForResponse`. -/
def switchSessionBegin (st : ChatState) (sessionId : String) : ChatState × Bool :=
  let st1 := { st with
    activeSessionId := some sessionId
    currentSessionId := some sessionId }
  if mapHas st1.sessions sessionId then (st1, false)
  else
    ({ st1 with
        sessions := mapSet st1.sessions sessionId []
        waitingForResponse := true },
      true)

/-- The mapping applied to each fetched history record: `text` is
`message.kwargs.content`, `sender` is `"user"` exactly when `message.id`
contains the substring `"HumanMessage"`, the message id is the array index
and `createdAt` the shared post-fetch timestamp. -/
def mkHistoryMessage (index : Nat) (r : HistoryRecord) (t : Nat) : ChatMessage :=
  { id := toString index
    text := r.content
    sender := if strIncludes r.id "HumanMessage" then "user" else "bot"
    createdAt := t }

/-- `switchSession` from the return of the history fetch to the end: clear
`waitingForResponse`, map the records (`previousMessagesResponse?.data || []`)
into messages, store the list and return the session id. -/
def switchSessionFinish (st : ChatState) (sessionId : String)
    (resp : Option (List HistoryRecord)) (t : Nat) : ChatState × String :=
  let st1 := { st with waitingForResponse := false }
  let sessionMessages := (resp.getD []).enum.map (fun p => mkHistoryMessage p.1 p.2 t)
  ({ st1 with sessions := mapSet st1.sessions sessionId sessionMessages }, sessionId)

/-- The whole `switchSession(sessionId)` run: `some id` is returned exactly
when a fetch happened, `none` (`undefined`) on a cache hit. -/
def switchSession (st : ChatState) (sessionId : String)
    (resp : Option (List HistoryRecord)) (t : Nat) : ChatState × Option String :=
  let r := switchSessionBegin st sessionId
  if r.2 then
    let f := switchSessionFinish r.1 sessionId resp t
    (f.1, some f.2)
  else (r.1, none)

/-- `loadConversation(conversationId)`: delegate to `switchSession`, then if a
registry entry with that id exists, refresh its `lastUpdated` in place and
persist the registry (the source performs no re-sort here). -/
def loadConversation (st : ChatState) (conversationId : String)
    (resp : Option (List HistoryRecord)) (tFetch tUpdate : Nat) : ChatState :=
  let st1 := (switchSession st conversationId resp tFetch).1
  if st1.conversations.any (fun c => c.id == conversationId) then
    let convs := updateFirstConv st1.conversations conversationId
      (fun c => { c with lastUpdated := tUpdate })
    updateStoredConversations { st1 with conversations := convs } convs
  else st1

/-- `startNewSession()`: draw a uuid, point both pointers at it, seed its
message list with the cached `initialMessages.value`, and write the id to the
last-session localStorage key.  The registry is untouched. -/
def startNewSession (st : ChatState) (newSessionId : String) : ChatState :=
  { st with
    activeSessionId := some newSessionId
    currentSessionId := some newSessionId
    sessions := mapSet st.sessions newSessionId st.initialMsgs
    storedSessionId := some newSessionId }

/-- `loadPreviousSession()`: no-op unless the option is configured; with a
truthy stored last-session id that matches a stored summary, load the stored
registry into memory and delegate to `switchSession`; otherwise fall back to
`startNewSession` and return `undefined`. -/
def loadPreviousSession (st : ChatState) (shouldLoad : Bool)
    (resp : Option (List HistoryRecord)) (t : Nat) (newUuid : String) :
    ChatState × Option String :=
  if !shouldLoad then (st, none)
  else
    match st.storedSessionId with
    | some sessionId =>
      if sessionId == "" then (startNewSession st newUuid, none)
      else
        let storedConversations := getStoredConversations st.storedConversations
        if storedConversations.any (fun c => c.id == sessionId) then
          switchSession { st with conversations := storedConversations } sessionId resp t
        else (startNewSession st newUuid, none)
    | none => (startNewSession st newUuid, none)

/-- `getCurrentSessionId()`. -/
def getCurrentSessionId (st : ChatState) : Option String :=
  st.currentSessionId

/-- Is the registry sorted descending by `lastUpdated` (adjacent pairs ordered
by the sort comparator)? -/
def isSortedByLastUpdatedDesc : List ConversationMeta → Bool
  | [] => true
  | [_] => true
  | a :: b :: rest => convLe a b && isSortedByLastUpdatedDesc (b :: rest)

/-- At most one registry entry per session id. -/
def uniqueIds (l : List ConversationMeta) : Prop :=
  (l.map (fun c => c.id)).Nodup

instance (l : List ConversationMeta) : Decidable (uniqueIds l) := by
  unfold uniqueIds
  infer_instance

/-! ### Concrete scenario states (used by counterexamples and witnesses) -/

/-- A baseline state: one loaded session `"A"` (empty list), active and
current, flag down, empty registry and storage. -/
def wState : ChatState :=
  { conversations := []
    sessions := [("A", [])]
    currentSessionId := some "A"
    activeSessionId := some "A"
    waitingForResponse := false
    initialMsgs := []
    storedConversations := none
    storedSessionId := none }

/-- A pending send whose captured list already holds one user message. -/
def wPending : PendingSend :=
  { updatedMessages := [{ id := "u1", text := "hi", sender := "user", createdAt := 1 }] }

/-- Interleaving scenario: install, start session `"A"`, begin sending
`"hi"` in `"A"`. -/
def c1St1 : ChatState :=
  startNewSession (installState [] (fun _ => "i0") 0 none none) "A"

def c1Begin : ChatState × Option PendingSend :=
  sendMessageBegin c1St1 "hi" (some []) "u1" 1

def c1Resp : SendResponse :=
  { output := some "hello", text := none, numKeys := 1, stringified := none }

/-- While the send is in flight, `startNewSession` moves the active pointer
to `"B"`; then the backend reply arrives. -/
def c1Final : ChatState :=
  sendMessageFinish (startNewSession c1Begin.1 "B")
    (c1Begin.2.getD { updatedMessages := [] }) c1Resp "u2" 2

def c2Resp (s : String) : SendResponse :=
  { output := some s, text := none, numKeys := 1, stringified := none }

/-- Two conversations: a full exchange in `"A"` (registry entry at time 2),
then a full exchange in `"B"` (registry entry at time 4, sorted first). -/
def c2St4 : ChatState :=
  sendMessage
    (startNewSession
      (sendMessage (startNewSession (installState [] (fun _ => "i0") 0 none none) "A")
        "a" (some []) "u1" "u2" (c2Resp "ra") 1 2)
      "B")
    "b" (some []) "u3" "u4" (c2Resp "rb") 3 4

/-- Reopening the older conversation `"A"` at time 9 refreshes its
`lastUpdated` in place. -/
def c2Final : ChatState := loadConversation c2St4 "A" none 8 9

/-- A fetched history holding one human and one non-human record. -/
def c3Records : List HistoryRecord :=
  [{ id := "HumanMessage-1", content := "hi" }, { id := "AIMessage-1", content := "yo" }]

/-- Switching to the unknown session `"s1"` loads that history. -/
def c3Final : ChatState :=
  (switchSession (installState [] (fun _ => "i0") 0 none none) "s1" (some c3Records) 3).1

/-- Install at time 5 with one configured initial message, then two
successive `startNewSession` calls. -/
def c4Final : ChatState :=
  startNewSession (startNewSession (installState ["welcome"] (fun _ => "w0") 5 none none) "A") "B"

/-! ### Helper lemmas about the map, the registry upsert and the sort -/

theorem mapGet_mapSet_self (m : List (String × α)) (k : String) (v : α) :
    mapGet (mapSet m k v) k = some v := by
  induction m with
  | nil => simp [mapGet, mapSet]
  | cons p rest ih =>
    obtain ⟨a, b⟩ := p
    by_cases hak : a = k
    · simp [mapGet, mapSet, hak]
    · have h1 : (a == k) = false := by simpa using hak
      simp only [mapSet, h1, Bool.false_eq_true, if_false]
      rw [mapGet, List.find?_cons_of_neg]
      · simpa [mapGet] using ih
      · simp [h1]

theorem mapSet_of_not_has (m : List (String × α)) (k : String) (v : α)
    (h : mapHas m k = false) : mapSet m k v = m ++ [(k, v)] := by
  induction m with
  | nil => rfl
  | cons p rest ih =>
    obtain ⟨a, b⟩ := p
    simp only [mapHas, List.any_cons, Bool.or_eq_false_iff, beq_eq_false_iff_ne] at h
    simp only [mapSet, beq_iff_eq, h.1, if_false, List.cons_append, List.cons.injEq, true_and]
    exact ih (by simpa [mapHas] using h.2)

theorem updateFirstConv_map_id (l : List ConversationMeta) (cid : String)
    (f : ConversationMeta → ConversationMeta) (hf : ∀ c, (f c).id = c.id) :
    (updateFirstConv l cid f).map (fun c => c.id) = l.map (fun c => c.id) := by
  induction l with
  | nil => rfl
  | cons c rest ih =>
    by_cases h : c.id = cid
    · simp [updateFirstConv, h, hf]
    · simp [updateFirstConv, h, ih]

theorem sortConversations_perm (l : List ConversationMeta) :
    List.Perm (sortConversations l) l :=
  List.perm_insertionSort convRel l

theorem isSorted_of_sorted :
    ∀ {l : List ConversationMeta}, List.Sorted convRel l →
      isSortedByLastUpdatedDesc l = true := by
  intro l h
  induction l with
  | nil => rfl
  | cons a t ih =>
    cases t with
    | nil => rfl
    | cons b t2 =>
      rw [List.sorted_cons] at h
      have hab : convLe a b = true := by
        simpa [convLe, convRel] using h.1 b (by simp)
      simp [isSortedByLastUpdatedDesc, hab, ih h.2]

theorem sortConversations_sorted (l : List ConversationMeta) :
    isSortedByLastUpdatedDesc (sortConversations l) = true :=
  isSorted_of_sorted (List.sorted_insertionSort convRel l)

theorem mem_id_of_any (l : List ConversationMeta) (sid : String)
    (h : l.any (fun c => c.id == sid) = true) :
    sid ∈ l.map (fun c => c.id) := by
  rw [List.any_eq_true] at h
  obtain ⟨c, hc, hcid⟩ := h
  exact List.mem_map.2 ⟨c, hc, by simpa using hcid⟩

theorem upsertConversation_mem_id (l : List ConversationMeta) (sid : String)
    (t : Nat) (stats : MessageCount) :
    sid ∈ (upsertConversation l sid t stats).map (fun c => c.id) := by
  unfold upsertConversation
  by_cases h : l.any (fun c => c.id == sid) = true
  · rw [if_pos h, updateFirstConv_map_id]
    · exact mem_id_of_any l sid h
    · intro c; rfl
  · rw [if_neg h]
    simp

theorem upsertConversation_nodup (l : List ConversationMeta) (sid : String)
    (t : Nat) (stats : MessageCount)
    (h : (l.map (fun c => c.id)).Nodup) :
    ((upsertConversation l sid t stats).map (fun c => c.id)).Nodup := by
  unfold upsertConversation
  by_cases ha : l.any (fun c => c.id == sid) = true
  · rw [if_pos ha, updateFirstConv_map_id]
    · exact h
    · intro c; rfl
  · rw [if_neg ha]
    have hnot : sid ∉ l.map (fun c => c.id) := by
      intro hmem
      obtain ⟨c, hc, hcid⟩ := List.mem_map.1 hmem
      exact ha (List.any_eq_true.2 ⟨c, hc, by simpa using hcid⟩)
    simp only [List.map_append, List.map_cons, List.map_nil]
    exact List.Nodup.append h (List.nodup_singleton sid)
      (by simpa [List.disjoint_singleton] using hnot)

theorem countSender_append (l₁ l₂ : List ChatMessage) (w : String) :
    countSender (l₁ ++ l₂) w = countSender l₁ w + countSender l₂ w := by
  simp [countSender, List.filter_append]

theorem upsert_sort_uniqueIds (l : List ConversationMeta) (sid : String) (t : Nat)
    (stats : MessageCount) (h : uniqueIds l) :
    uniqueIds (sortConversations (upsertConversation l sid t stats)) := by
  unfold uniqueIds
  rw [(List.Perm.map (fun c => c.id)
    (sortConversations_perm (upsertConversation l sid t stats))).nodup_iff]
  exact upsertConversation_nodup l sid t stats h

theorem upsert_sort_mem_id (l : List ConversationMeta) (sid : String) (t : Nat)
    (stats : MessageCount) :
    ∃ c ∈ sortConversations (upsertConversation l sid t stats), c.id = sid := by
  obtain ⟨c, hc, hcid⟩ := List.mem_map.1 (upsertConversation_mem_id l sid t stats)
  exact ⟨c, (sortConversations_perm _).mem_iff.2 hc, hcid⟩

/-! ### Characterizations of the operation phases -/

theorem sendMessageBegin_of_active (st : ChatState) (text : String)
    (files : Option (List String)) (u : String) (t : Nat) (sid : String)
    (h : st.activeSessionId = some sid) :
    sendMessageBegin st text files u t =
      ({ st with
          sessions := mapSet st.sessions sid (((mapGet st.sessions sid).getD []) ++
            [{ id := u, text := text, sender := "user", files := files, createdAt := t }])
          waitingForResponse := true },
        some { updatedMessages := ((mapGet st.sessions sid).getD []) ++
          [{ id := u, text := text, sender := "user", files := files, createdAt := t }] }) := by
  simp [sendMessageBegin, h]

theorem sendMessageFinish_sessions (st : ChatState) (p : PendingSend)
    (resp : SendResponse) (u : String) (t : Nat) (sid : String)
    (h : st.activeSessionId = some sid) :
    mapGet (sendMessageFinish st p resp u t).sessions sid =
      some (p.updatedMessages ++
        [{ id := u, text := computeTextMessage resp, sender := "bot", createdAt := t }]) := by
  simp only [sendMessageFinish, h, updateStoredConversations]
  split <;> simp [mapGet_mapSet_self]

theorem sendMessageFinish_waiting (st : ChatState) (p : PendingSend)
    (resp : SendResponse) (u : String) (t : Nat) (sid : String)
    (h : st.activeSessionId = some sid) :
    (sendMessageFinish st p resp u t).waitingForResponse = false := by
  simp [sendMessageFinish, h, updateStoredConversations]

theorem sendMessageFinish_conversations (st : ChatState) (p : PendingSend)
    (resp : SendResponse) (u : String) (t : Nat) (sid : String)
    (h : st.activeSessionId = some sid)
    (hu : 0 < countSender p.updatedMessages "user") :
    (sendMessageFinish st p resp u t).conversations =
      sortConversations (upsertConversation st.conversations sid t
        { user := countSender (p.updatedMessages ++
            [{ id := u, text := computeTextMessage resp, sender := "bot", createdAt := t }]) "user",
          bot := countSender (p.updatedMessages ++
            [{ id := u, text := computeTextMessage resp, sender := "bot", createdAt := t }]) "bot" }) := by
  have hcond : 0 < countSender (p.updatedMessages ++
        [{ id := u, text := computeTextMessage resp, sender := "bot", createdAt := t }]) "user" ∧
      0 < countSender (p.updatedMessages ++
        [{ id := u, text := computeTextMessage resp, sender := "bot", createdAt := t }]) "bot" := by
    constructor
    · rw [countSender_append]
      omega
    · rw [countSender_append]
      have h1 : countSender [ChatMessage.mk u (computeTextMessage resp) "bot" none t] "bot" = 1 := by
        simp [countSender]
      omega
  simp only [sendMessageFinish, h, updateStoredConversations]
  split
  · rfl
  · rename_i hcontra
    exact absurd hcond hcontra

theorem switchSession_hit (st : ChatState) (sid : String)
    (resp : Option (List HistoryRecord)) (t : Nat)
    (hm : mapHas st.sessions sid = true) :
    switchSession st sid resp t =
      ({ st with activeSessionId := some sid, currentSessionId := some sid }, none) := by
  simp [switchSession, switchSessionBegin, hm]

theorem switchSession_miss (st : ChatState) (sid : String)
    (resp : Option (List HistoryRecord)) (t : Nat)
    (hm : mapHas st.sessions sid = false) :
    switchSession st sid resp t =
      ({ st with
          activeSessionId := some sid
          currentSessionId := some sid
          sessions := mapSet (mapSet st.sessions sid []) sid
            ((resp.getD []).enum.map (fun pr => mkHistoryMessage pr.1 pr.2 t))
          waitingForResponse := false },
        some sid) := by
  simp [switchSession, switchSessionBegin, switchSessionFinish, hm]

theorem switchSession_conversations (st : ChatState) (sid : String)
    (resp : Option (List HistoryRecord)) (t : Nat) :
    ((switchSession st sid resp t).1).conversations = st.conversations := by
  by_cases hm : mapHas st.sessions sid
  · rw [switchSession_hit st sid resp t hm]
  · rw [switchSession_miss st sid resp t (by simpa using hm)]

theorem switchSession_waiting (st : ChatState) (sid : String)
    (resp : Option (List HistoryRecord)) (t : Nat)
    (hw : st.waitingForResponse = false) :
    ((switchSession st sid resp t).1).waitingForResponse = false := by
  by_cases hm : mapHas st.sessions sid
  · rw [switchSession_hit st sid resp t hm]
    exact hw
  · rw [switchSession_miss st sid resp t (by simpa using hm)]

/-! ### The claims -/

/-- C4, corrected: every `startNewSession` call whose uuid draw is not already
a key of the in-memory session map appends a fresh entry for it, seeds that
entry with the cached initial bot messages (`initialMsgs`, computed at the
single evaluation of the `initialMessages` computed — *not* re-stamped per
call, see the counterexample), sets the new id as both the active and the
current session id, writes it to the last-session persistence key, and leaves
the conversation registry unchanged. -/
theorem c4_startNewSession_spec (st : ChatState) (u : String)
    (h : mapHas st.sessions u = false) :
    (startNewSession st u).sessions = st.sessions ++ [(u, st.initialMsgs)] ∧
    (startNewSession st u).activeSessionId = some u ∧
    (startNewSession st u).currentSessionId = some u ∧
    (startNewSession st u).storedSessionId = some u ∧
    (startNewSession st u).conversations = st.conversations := by
  refine ⟨?_, rfl, rfl, rfl, rfl⟩
  simp [startNewSession, mapSet_of_not_has st.sessions u st.initialMsgs h]

/-- Witness for C4: the theorem applied to the baseline state and the fresh
id `"B"`. -/
theorem c4_startNewSession_spec_witness :
    mapHas wState.sessions "B" = false ∧
    ((startNewSession wState "B").sessions = wState.sessions ++ [("B", wState.initialMsgs)] ∧
     (startNewSession wState "B").activeSessionId = some "B" ∧
     (startNewSession wState "B").currentSessionId = some "B" ∧
     (startNewSession wState "B").storedSessionId = some "B" ∧
     (startNewSession wState "B").conversations = wState.conversations) :=
  ⟨by decide, c4_startNewSession_spec wState "B" (by decide)⟩

/-- C4 is false as stated on the timestamp clause: after installing at time 5
and calling `startNewSession` twice (ids `"A"` then `"B"`), both sessions are
seeded with the *same* message — same id `"w0"` and same `createdAt = 5`, the
timestamp of the single cached evaluation of `initialMessages` — so the
seeded messages do not carry the timestamp of each call and are not distinct
across successive calls. -/
theorem c4_counterexample :
    mapGet c4Final.sessions "A" = mapGet c4Final.sessions "B" ∧
    mapGet c4Final.sessions "A" =
      some [{ id := "w0", text := "welcome", sender := "bot", createdAt := 5 }] := by
  decide

/-- C5, confirmed: when the in-memory session map already holds an entry for
`sid`, `switchSession sid` returns `undefined`, changes nothing but the
active/current pointers (in particular it performs no history fetch: the
result does not depend on the backend response oracle `resp`, which stays
universally quantified), and leaves the session's message list unchanged. -/
theorem c5_switchSession_idempotent (st : ChatState) (sid : String)
    (resp : Option (List HistoryRecord)) (t : Nat)
    (h : mapHas st.sessions sid = true) :
    switchSession st sid resp t =
      ({ st with activeSessionId := some sid, currentSessionId := some sid }, none) ∧
    mapGet ((switchSession st sid resp t).1).sessions sid = mapGet st.sessions sid := by
  refine ⟨switchSession_hit st sid resp t h, ?_⟩
  rw [switchSession_hit st sid resp t h]

/-- Witness for C5: switching to the already-loaded session `"A"` of the
baseline state. -/
theorem c5_switchSession_idempotent_witness :
    mapHas wState.sessions "A" = true ∧
    (switchSession wState "A" none 7 =
      ({ wState with activeSessionId := some "A", currentSessionId := some "A" }, none) ∧
     mapGet ((switchSession wState "A" none 7).1).sessions "A" = mapGet wState.sessions "A") :=
  ⟨by decide, c5_switchSession_idempotent wState "A" none 7 (by decide)⟩

/-- C6, confirmed: fetching history for a session not in memory stores, for
that session, exactly the image of the returned records under
`mkHistoryMessage` and returns the session id; and `mkHistoryMessage` maps a
record to a message whose text is the record's `kwargs.content` and whose
sender is `"user"` exactly when the record's id contains the substring
`"HumanMessage"`, `"bot"` otherwise. -/
theorem c6_switchSession_history_mapping (st : ChatState) (sid : String)
    (records : List HistoryRecord) (t : Nat) (i : Nat) (r : HistoryRecord) (tt : Nat)
    (h : mapHas st.sessions sid = false) :
    (switchSession st sid (some records) t).2 = some sid ∧
    mapGet ((switchSession st sid (some records) t).1).sessions sid =
      some (records.enum.map (fun pr => mkHistoryMessage pr.1 pr.2 t)) ∧
    (mkHistoryMessage i r tt).text = r.content ∧
    (mkHistoryMessage i r tt).sender =
      (if strIncludes r.id "HumanMessage" then "user" else "bot") := by
  rw [switchSession_miss st sid (some records) t h]
  refine ⟨rfl, ?_, rfl, rfl⟩
  simpa using mapGet_mapSet_self (mapSet st.sessions sid []) sid
    (records.enum.map (fun pr => mkHistoryMessage pr.1 pr.2 t))

/-- Witness for C6: the spec's own scenario — a stub backend returning one
`HumanMessage` record (plus one non-human record) for the unknown session
`"B"`. -/
theorem c6_switchSession_history_mapping_witness :
    mapHas wState.sessions "B" = false ∧
    ((switchSession wState "B" (some c3Records) 3).2 = some "B" ∧
     mapGet ((switchSession wState "B" (some c3Records) 3).1).sessions "B" =
       some (c3Records.enum.map (fun pr => mkHistoryMessage pr.1 pr.2 3)) ∧
     (mkHistoryMessage 0 { id := "HumanMessage-1", content := "hey" } 3).text = "hey" ∧
     (mkHistoryMessage 0 { id := "HumanMessage-1", content := "hey" } 3).sender =
       (if strIncludes "HumanMessage-1" "HumanMessage" then "user" else "bot")) :=
  ⟨by decide,
    c6_switchSession_history_mapping wState "B" c3Records 3 0
      { id := "HumanMessage-1", content := "hey" } 3 (by decide)⟩

/-- C7, confirmed: the bot reply appended by the post-await part of
`sendMessage` carries exactly `computeTextMessage resp` as its text, and that
text is the `output`-then-`text` field of the response; when that chain
yields the empty string and the response object is non-empty it is the JSON
serialization of the whole response, and when that serialization throws the
exception is swallowed and the text stays the empty string (the function is
total — no error propagates). -/
theorem c7_reply_text_fallback (st : ChatState) (p : PendingSend) (resp : SendResponse)
    (u : String) (t : Nat) (sid : String)
    (h : st.activeSessionId = some sid) :
    mapGet (sendMessageFinish st p resp u t).sessions sid =
      some (p.updatedMessages ++
        [{ id := u, text := computeTextMessage resp, sender := "bot", createdAt := t }]) ∧
    computeTextMessage resp =
      (if resp.output.getD (resp.text.getD "") = "" ∧ 0 < resp.numKeys then
        match resp.stringified with
        | some s => s
        | none => ""
      else resp.output.getD (resp.text.getD "")) := by
  refine ⟨sendMessageFinish_sessions st p resp u t sid h, ?_⟩
  simp only [computeTextMessage, beq_iff_eq]
  split
  · rename_i hc
    cases hs : resp.stringified with
    | some s => rfl
    | none => exact hc.1
  · rfl

/-- Witness for C7: a response with no `output`/`text` field whose
stringification throws — the reply text is the empty string and no error
escapes. -/
theorem c7_reply_text_fallback_witness :
    mapGet (sendMessageFinish wState wPending
        { output := none, text := none, numKeys := 2, stringified := none } "u9" 4).sessions "A" =
      some (wPending.updatedMessages ++
        [{ id := "u9",
           text := computeTextMessage
             { output := none, text := none, numKeys := 2, stringified := none },
           sender := "bot", createdAt := 4 }]) ∧
    computeTextMessage { output := none, text := none, numKeys := 2, stringified := none } =
      (if (none : Option String).getD ((none : Option String).getD "") = "" ∧
          0 < (2 : Nat) then
        match (none : Option String) with
        | some s => s
        | none => ""
      else (none : Option String).getD ((none : Option String).getD "")) :=
  c7_reply_text_fallback wState wPending
    { output := none, text := none, numKeys := 2, stringified := none } "u9" 4 "A" rfl

/-- C8, confirmed: the persistence adapter's registry load is a total
function of the stored slot — the parsed list when the stored JSON parses,
and the empty list when the key is missing or parsing fails; no exception
escapes (the `try`/`catch` of the source is absorbed into totality). -/
theorem c8_getStoredConversations_never_throws (l : List ConversationMeta) :
    getStoredConversations none = [] ∧
    getStoredConversations (some none) = [] ∧
    getStoredConversations (some (some l)) = l :=
  ⟨rfl, rfl, rfl⟩

/-- C1 is false as stated: in the interleaved run `c1Final` the send started
while `"A"` was active, `startNewSession` moved the pointer to `"B"` during
the backend call, and the reply `"hello"` was appended to `"B"`'s list (which
was even overwritten with the messages captured from `"A"`), while `"A"`'s
list — the session active when `sendMessage` started — never received it. -/
theorem c1_counterexample :
    mapGet c1Final.sessions "A" =
      some [{ id := "u1", text := "hi", sender := "user", files := some [], createdAt := 1 }] ∧
    mapGet c1Final.sessions "B" =
      some [{ id := "u1", text := "hi", sender := "user", files := some [], createdAt := 1 },
            { id := "u2", text := "hello", sender := "bot", createdAt := 2 }] := by
  decide

/-- C1, amended: the post-await half of `sendMessage` appends the bot reply
(after the captured `updatedMessages`) to the list of whatever session
`activeSessionId` points at when the response arrives — not the one captured
at call start; consequently, when no operation moves the pointer during the
backend call, the whole `sendMessage` run appends the user message and the
bot reply to the originally active session's list. -/
theorem c1_reply_lands_in_live_active_session
    (st st2 : ChatState) (text : String) (files : Option (List String))
    (u1 u2 : String) (resp : SendResponse) (t1 t2 : Nat)
    (sid sid2 : String) (p : PendingSend)
    (h : st.activeSessionId = some sid)
    (h2 : st2.activeSessionId = some sid2) :
    mapGet (sendMessage st text files u1 u2 resp t1 t2).sessions sid =
      some (((mapGet st.sessions sid).getD []) ++
        [{ id := u1, text := text, sender := "user", files := files, createdAt := t1 },
         { id := u2, text := computeTextMessage resp, sender := "bot", createdAt := t2 }]) ∧
    mapGet (sendMessageFinish st2 p resp u2 t2).sessions sid2 =
      some (p.updatedMessages ++
        [{ id := u2, text := computeTextMessage resp, sender := "bot", createdAt := t2 }]) := by
  constructor
  · simp only [sendMessage, sendMessageBegin_of_active st text files u1 t1 sid h]
    rw [sendMessageFinish_sessions _ _ _ _ _ sid (by simp [h])]
    simp
  · exact sendMessageFinish_sessions st2 p resp u2 t2 sid2 h2

/-- Witness for C1 (amended): both parts applied to the baseline state with
session `"A"` active throughout. -/
theorem c1_reply_lands_in_live_active_session_witness :
    mapGet (sendMessage wState "hi" (some []) "u1" "u2" c1Resp 1 2).sessions "A" =
      some (((mapGet wState.sessions "A").getD []) ++
        [{ id := "u1", text := "hi", sender := "user", files := some [], createdAt := 1 },
         { id := "u2", text := computeTextMessage c1Resp, sender := "bot", createdAt := 2 }]) ∧
    mapGet (sendMessageFinish wState wPending c1Resp "u2" 2).sessions "A" =
      some (wPending.updatedMessages ++
        [{ id := "u2", text := computeTextMessage c1Resp, sender := "bot", createdAt := 2 }]) :=
  c1_reply_lands_in_live_active_session wState wState "hi" (some []) "u1" "u2"
    c1Resp 1 2 "A" "A" wPending rfl rfl

/-- C2 is false as stated: in the run `c2Final` the registry holds `"B"`
(lastUpdated 4) before `"A"`, whose `lastUpdated` was just refreshed to 9 by
`loadConversation` — which updates in place and performs no re-sort — so
after that registry mutation the list is not sorted descending by
`lastUpdated`. -/
theorem c2_counterexample :
    c2Final.conversations.map (fun c => (c.id, c.lastUpdated)) = [("B", 4), ("A", 9)] ∧
    isSortedByLastUpdatedDesc c2Final.conversations = false := by
  decide

/-- C2, amended: after `sendMessage`'s summary upsert the registry is sorted
descending by `lastUpdated` and still has at most one entry per session id
(given it had before); `loadConversation`'s `lastUpdated` refresh also keeps
ids unique, but it re-sorts nothing, so sortedness is only guaranteed after
the `sendMessage` upsert. -/
theorem c2_registry_sorted_unique (st : ChatState) (p : PendingSend)
    (resp : SendResponse) (u : String) (t : Nat) (sid : String)
    (stc : ChatState) (cid : String) (resp2 : Option (List HistoryRecord)) (t1 t2 : Nat)
    (h : st.activeSessionId = some sid)
    (hu : 0 < countSender p.updatedMessages "user")
    (hnd : uniqueIds st.conversations)
    (hnd2 : uniqueIds stc.conversations) :
    isSortedByLastUpdatedDesc (sendMessageFinish st p resp u t).conversations = true ∧
    uniqueIds (sendMessageFinish st p resp u t).conversations ∧
    uniqueIds (loadConversation stc cid resp2 t1 t2).conversations := by
  rw [sendMessageFinish_conversations st p resp u t sid h hu]
  refine ⟨sortConversations_sorted _, upsert_sort_uniqueIds _ _ _ _ hnd, ?_⟩
  have hconv := switchSession_conversations stc cid resp2 t1
  simp only [loadConversation, updateStoredConversations, hconv]
  split
  · unfold uniqueIds
    rw [updateFirstConv_map_id]
    · exact hnd2
    · intro c
      rfl
  · rw [hconv]
    exact hnd2

/-- Witness for C2 (amended): a send finishing on the baseline state with one
captured user message, and a `loadConversation` on the baseline state. -/
theorem c2_registry_sorted_unique_witness :
    (0 < countSender wPending.updatedMessages "user" ∧
     uniqueIds wState.conversations) ∧
    (isSortedByLastUpdatedDesc (sendMessageFinish wState wPending c1Resp "u2" 2).conversations
        = true ∧
     uniqueIds (sendMessageFinish wState wPending c1Resp "u2" 2).conversations ∧
     uniqueIds (loadConversation wState "C" none 7 8).conversations) :=
  ⟨⟨by decide, by decide⟩,
    c2_registry_sorted_unique wState wPending c1Resp "u2" 2 "A" wState "C" none 7 8
      rfl (by decide) (by decide) (by decide)⟩

/-- C3 is false as stated: in the run `c3Final`, session `"s1"`'s in-memory
list — loaded by `switchSession` from fetched history — holds at least one
`"user"` and at least one `"bot"` message, yet the conversation registry is
empty: no `ConversationSummary` exists for `"s1"`, so the claimed equivalence
fails (summaries are never created by `switchSession`). -/
theorem c3_counterexample :
    0 < countSender ((mapGet c3Final.sessions "s1").getD []) "user" ∧
    0 < countSender ((mapGet c3Final.sessions "s1").getD []) "bot" ∧
    c3Final.conversations = [] := by
  decide

/-- C3, amended: registry summaries are created or refreshed only by
`sendMessage`'s upsert — `switchSession` always leaves the registry
untouched, whatever history it loads, while a completed `sendMessage` on an
active session always leaves a summary carrying that session's id in the
registry. -/
theorem c3_summary_only_from_sendMessage (st : ChatState) (sid : String)
    (resp : Option (List HistoryRecord)) (t : Nat)
    (st2 : ChatState) (text : String) (files : Option (List String))
    (u1 u2 : String) (r2 : SendResponse) (t1 t2 : Nat) (sid2 : String)
    (h : st2.activeSessionId = some sid2) :
    ((switchSession st sid resp t).1).conversations = st.conversations ∧
    ∃ c ∈ (sendMessage st2 text files u1 u2 r2 t1 t2).conversations, c.id = sid2 := by
  refine ⟨switchSession_conversations st sid resp t, ?_⟩
  simp only [sendMessage, sendMessageBegin_of_active st2 text files u1 t1 sid2 h]
  rw [sendMessageFinish_conversations _ _ _ _ _ sid2 (by simp [h])
      (by rw [countSender_append]; simp [countSender])]
  exact upsert_sort_mem_id _ _ _ _

/-- Witness for C3 (amended): a `switchSession` and a full `sendMessage`, both
from the baseline state with `"A"` active. -/
theorem c3_summary_only_from_sendMessage_witness :
    ((switchSession wState "B" (some c3Records) 3).1).conversations = wState.conversations ∧
    ∃ c ∈ (sendMessage wState "hi" (some []) "u1" "u2" c1Resp 1 2).conversations,
      c.id = "A" :=
  c3_summary_only_from_sendMessage wState "B" (some c3Records) 3 wState "hi" (some [])
    "u1" "u2" c1Resp 1 2 "A" rfl

/-- C9, confirmed: `loadPreviousSession` is the identity returning
`undefined` when the resume option is off; with a truthy stored last-session
id matching a stored summary it loads the stored registry into memory and
returns whatever `switchSession` returns for that id; in every other case
(no stored id, empty stored id, or no matching stored summary) it runs
`startNewSession` and returns `undefined`. -/
theorem c9_loadPreviousSession_spec (st : ChatState) (shouldLoad : Bool)
    (resp : Option (List HistoryRecord)) (t : Nat) (u : String) :
    loadPreviousSession st shouldLoad resp t u =
      if shouldLoad = false then (st, none)
      else
        match st.storedSessionId with
        | none => (startNewSession st u, none)
        | some sid =>
          if sid = "" then (startNewSession st u, none)
          else if (getStoredConversations st.storedConversations).any
              (fun c => c.id == sid) then
            switchSession
              { st with conversations := getStoredConversations st.storedConversations }
              sid resp t
          else (startNewSession st u, none) := by
  cases shouldLoad with
  | false => rfl
  | true =>
    cases hs : st.storedSessionId with
    | none => simp [loadPreviousSession, hs]
    | some sid =>
      by_cases hsid : sid = ""
      · simp [loadPreviousSession, hs, hsid]
      · simp [loadPreviousSession, hs, hsid]

/-- C10, confirmed: starting from a quiescent state (flag down), every
complete store operation returns with `waitingForResponse = false`, while the
pre-await halves of `sendMessage` (with an active session) and of a
cache-missing `switchSession` leave it raised for the duration of their
backend call. -/
theorem c10_waiting_flag (st : ChatState) (text : String) (files : Option (List String))
    (u1 u2 u3 : String) (resp : SendResponse) (hist : Option (List HistoryRecord))
    (t1 t2 : Nat) (sid sid2 cid : String)
    (hw : st.waitingForResponse = false)
    (hact : st.activeSessionId = some sid)
    (hmiss : mapHas st.sessions sid2 = false) :
    (sendMessage st text files u1 u2 resp t1 t2).waitingForResponse = false ∧
    ((switchSession st sid2 hist t1).1).waitingForResponse = false ∧
    (startNewSession st u3).waitingForResponse = false ∧
    (loadConversation st cid hist t1 t2).waitingForResponse = false ∧
    ((loadPreviousSession st true hist t1 u3).1).waitingForResponse = false ∧
    ((sendMessageBegin st text files u1 t1).1).waitingForResponse = true ∧
    ((switchSessionBegin st sid2).1).waitingForResponse = true := by
  refine ⟨?_, switchSession_waiting st sid2 hist t1 hw, hw, ?_, ?_, ?_, ?_⟩
  · simp only [sendMessage, sendMessageBegin_of_active st text files u1 t1 sid hact]
    exact sendMessageFinish_waiting _ _ _ _ _ sid (by simp [hact])
  · simp only [loadConversation, updateStoredConversations]
    split
    · simpa using switchSession_waiting st cid hist t1 hw
    · exact switchSession_waiting st cid hist t1 hw
  · simp only [loadPreviousSession, Bool.not_true, Bool.false_eq_true, if_false]
    cases hs : st.storedSessionId with
    | none => simpa [startNewSession] using hw
    | some s =>
      by_cases hse : s = ""
      · simp [hse, startNewSession, hw]
      · simp only [hse, beq_iff_eq, if_false]
        split
        · exact switchSession_waiting _ _ _ _ (by simpa using hw)
        · simpa [startNewSession] using hw
  · rw [sendMessageBegin_of_active st text files u1 t1 sid hact]
  · simp [switchSessionBegin, hmiss]

/-- Witness for C10: the baseline state with `"A"` active and `"B"` not in
memory. -/
theorem c10_waiting_flag_witness :
    (wState.waitingForResponse = false ∧
     wState.activeSessionId = some "A" ∧
     mapHas wState.sessions "B" = false) ∧
    ((sendMessage wState "hi" (some []) "u1" "u2" c1Resp 1 2).waitingForResponse = false ∧
     ((switchSession wState "B" none 1).1).waitingForResponse = false ∧
     (startNewSession wState "N").waitingForResponse = false ∧
     (loadConversation wState "C" none 1 2).waitingForResponse = false ∧
     ((loadPreviousSession wState true none 1 "N").1).waitingForResponse = false ∧
     ((sendMessageBegin wState "hi" (some []) "u1" 1).1).waitingForResponse = true ∧
     ((switchSessionBegin wState "B").1).waitingForResponse = true) :=
  ⟨⟨rfl, rfl, by decide⟩,
    c10_waiting_flag wState "hi" (some []) "u1" "u2" "N" c1Resp none 1 2 "A" "B" "C"
      rfl rfl (by decide)⟩

end N8nChat
